import Mathlib

/-!
Verification of the transcription service's task-lifecycle core against its
natural-language specification.  The definitions below are a shallow embedding
of `src/transcriber_service/app/main.py` and
`src/transcriber_service/tasks/transcription.py`: Redis is modelled as a pure
key-to-document map, JSON metadata documents as a record of optional fields
(a JSON `null` and an absent key are conflated, which is faithful because every
read in the source goes through `dict.get`), the filesystem as an oracle giving
each path's state, and wall-clock timestamps as opaque strings together with an
abstract ISO-8601 parse function.
-/

namespace TranscriberService

/-- Wire-visible task status vocabulary (spec section 6). -/
inductive Status
  | pendingUploaded
  | pendingDownloaded
  | pendingCeleryDispatch
  | processing
  | retrying
  | completed
  | completedWithS3UploadFailures
  | failed
  deriving DecidableEq, Repr

/-- The JSON metadata document stored under `task:<task_id>`.  Every field is
optional: `none` models both an absent key and a JSON `null`, matching the
`dict.get` reads used throughout the source.  Note that the document carries
both `s3_results_path` (written by the dispatcher in `main.py`) and `s3_path`
(read, but never written, by `cleanup_expired_tasks`). -/
structure Metadata where
  client_id : Option String := none
  status : Option Status := none
  task_type : Option String := none
  s3_results_path : Option String := none
  s3_path : Option String := none
  original_filename : Option String := none
  original_url : Option String := none
  original_s3_input_path : Option String := none
  saved_filename : Option String := none
  transcribed_json_file : Option String := none
  transcribed_md_file : Option String := none
  upload_time : Option String := none
  download_time : Option String := none
  celery_dispatch_time : Option String := none
  processing_start_time : Option String := none
  processing_end_time : Option String := none
  last_download_time : Option String := none
  last_updated_time : Option String := none
  error_message : Option String := none
  worker_node : Option String := none
  celery_task_id : Option String := none
  s3_json_url : Option String := none
  s3_md_url : Option String := none
  deriving DecidableEq, Repr

/-- The empty JSON document `{}`. -/
def emptyMeta : Metadata := {}

/-- Python truthiness of an optional string: `None` and `""` are falsy. -/
def truthy : Option String → Bool
  | none => false
  | some s => s ≠ ""

/-- Dictionary-update priority: the first argument (the update) wins when its
key is present.  Models `dict.update` restricted to the known schema. -/
def orD (a b : Option String) : Option String :=
  match a with
  | some v => some v
  | none => b

/-- `orD` for the status field. -/
def orDS (a b : Option Status) : Option Status :=
  match a with
  | some v => some v
  | none => b

/-- Python `a or b` on optional strings: keeps `a` when it is truthy. -/
def orT (a b : Option String) : Option String :=
  if truthy a then a else b

/-- `old.update(new)` over the fixed schema: every key present in the update
dictionary overwrites the stored one. -/
def mergeUpdates (m u : Metadata) : Metadata where
  client_id := orD u.client_id m.client_id
  status := orDS u.status m.status
  task_type := orD u.task_type m.task_type
  s3_results_path := orD u.s3_results_path m.s3_results_path
  s3_path := orD u.s3_path m.s3_path
  original_filename := orD u.original_filename m.original_filename
  original_url := orD u.original_url m.original_url
  original_s3_input_path := orD u.original_s3_input_path m.original_s3_input_path
  saved_filename := orD u.saved_filename m.saved_filename
  transcribed_json_file := orD u.transcribed_json_file m.transcribed_json_file
  transcribed_md_file := orD u.transcribed_md_file m.transcribed_md_file
  upload_time := orD u.upload_time m.upload_time
  download_time := orD u.download_time m.download_time
  celery_dispatch_time := orD u.celery_dispatch_time m.celery_dispatch_time
  processing_start_time := orD u.processing_start_time m.processing_start_time
  processing_end_time := orD u.processing_end_time m.processing_end_time
  last_download_time := orD u.last_download_time m.last_download_time
  last_updated_time := orD u.last_updated_time m.last_updated_time
  error_message := orD u.error_message m.error_message
  worker_node := orD u.worker_node m.worker_node
  celery_task_id := orD u.celery_task_id m.celery_task_id
  s3_json_url := orD u.s3_json_url m.s3_json_url
  s3_md_url := orD u.s3_md_url m.s3_md_url

/-- The metadata store: Redis db 0 restricted to `task:*` keys, as a pure
key-to-document map. -/
def Store := String → Option Metadata

/-- The Redis key of a task. -/
def taskKey (task_id : String) : String := "task:" ++ task_id

/-- `redis_client.set` on the store. -/
def Store.set (s : Store) (key : String) (m : Metadata) : Store :=
  fun k => if k = key then some m else s k

/-- `redis_client.delete` on the store. -/
def Store.del (s : Store) (key : String) : Store :=
  fun k => if k = key then none else s k

/-- `update_redis_metadata` (tasks/transcription.py lines 60-83): read the
document (creating `{}` when the key is absent), apply `metadata.update(updates)`,
stamp `last_updated_time`, and write it back. -/
def update_redis_metadata (store : Store) (task_id : String) (updates : Metadata)
    (now : String) : Store :=
  let key := taskKey task_id
  let metadata := match store key with
    | some m => m
    | none => emptyMeta
  let metadata := mergeUpdates metadata updates
  let metadata := { metadata with last_updated_time := some now }
  store.set key metadata

/-! ## Filename sanitizer (`sanitize_filename`, main.py lines 154-157) -/

/-- A character kept verbatim by the sanitizer: alphanumeric, `.` or `_`
(Python `c.isalnum() or c in ['.', '_']`; `Char.isAlphanum` stands in for
Python's `str.isalnum`, which agrees on every character relevant to the path
properties at stake, in particular on `/`, `\` and `.`). -/
def keepChar (c : Char) : Bool := c.isAlphanum || c = '.' || c = '_'

/-- One character of the sanitizer's comprehension. -/
def sanitizeChar (c : Char) : Char := if keepChar c then c else '_'

/-- `sanitize_filename`: replace every disallowed character by `_`, truncate to
100 characters when longer, and fall back to the default when the result is
empty (Python `or default`). -/
def sanitize_filename (filename : String) (dflt : String) : String :=
  let safe := String.mk (filename.toList.map sanitizeChar)
  let safe := if safe.length > 100 then String.mk (safe.toList.take 100) else safe
  if safe = "" then dflt else safe

/-! ## Cache Reaper (`cleanup_expired_tasks`, transcription.py lines 253-382) -/

/-- `os.path.join` for the relative paths the service builds (no stored path is
absolute, so the join is plain concatenation with a separator). -/
def pjoin (a b : String) : String := a ++ "/" ++ b

/-- State of a file path during one sweep: absent (`os.path.exists` is false),
present and removable, or present with `os.remove` raising `OSError`. -/
inductive FState
  | absent
  | present
  | locked
  deriving DecidableEq, Repr

/-- Whether a deletion attempt on this path raises. -/
def FState.isLocked : FState → Bool
  | FState.locked => true
  | _ => false

/-- The task-scoped subdirectory as one sweep observes it: whether it exists,
what `os.listdir` returns after the file-deletion phase, and whether `os.rmdir`
succeeds when the directory is empty (`os.rmdir` of a non-empty directory
always raises). -/
structure DirFS where
  dirExists : Bool
  entries : List String
  rmdirEmptyOk : Bool
  deriving DecidableEq, Repr

/-- The expiry timestamp chosen by status (transcription.py lines 289-297); the
Python `or` chains skip `None` and `""`. -/
def selectTimestamp (m : Metadata) : Option String :=
  match m.status with
  | some Status.failed => orT m.processing_end_time m.last_updated_time
  | some Status.completed =>
      orT m.last_download_time (orT m.processing_end_time m.last_updated_time)
  | some Status.completedWithS3UploadFailures =>
      orT m.last_download_time (orT m.processing_end_time m.last_updated_time)
  | _ => orT m.upload_time (orT m.download_time
      (orT m.celery_dispatch_time m.last_updated_time))

/-- The deletion list built by the sweep (transcription.py lines 315-327): the
source audio when the record's `s3_path` key is falsy and `saved_filename` is
set, then the two artifact paths when present.  Note the guard reads `s3_path`,
not `s3_results_path`. -/
def filesToAttemptDelete (cacheDir : String) (m : Metadata) : List String :=
  (if !truthy m.s3_path && truthy m.saved_filename
    then [pjoin cacheDir (m.saved_filename.getD "")] else [])
  ++ (if truthy m.transcribed_json_file
    then [pjoin cacheDir (m.transcribed_json_file.getD "")] else [])
  ++ (if truthy m.transcribed_md_file
    then [pjoin cacheDir (m.transcribed_md_file.getD "")] else [])

/-- Number of file deletion attempts that raise (transcription.py lines
329-338): present files are removed, absent files only logged as missing,
locked files counted as failed deletions. -/
def fileFailures (fs : String → FState) (files : List String) : Nat :=
  files.countP (fun p => (fs p).isLocked)

/-- Failures contributed by the task-directory removal logic (transcription.py
lines 340-359): when the directory exists, an empty listing leads to one
`os.rmdir` attempt; a non-empty listing leads to an `os.rmdir` attempt (which
always raises, the directory being non-empty) exactly when none of the
remaining entries was a targeted file; otherwise only a warning is logged. -/
def dirFailures (dfs : DirFS) (files : List String) (dirPath : String) : Nat :=
  if dfs.dirExists then
    if dfs.entries = [] then
      if dfs.rmdirEmptyOk then 0 else 1
    else
      if dfs.entries.filter (fun f => files.contains (pjoin dirPath f)) = []
        then 1 else 0
  else 0

/-- Observable outcome of one task's slice of a sweep. -/
structure ReapResult where
  expired : Bool
  attemptedFiles : List String
  failedDeletions : Nat
  recordDeleted : Bool
  deriving DecidableEq, Repr

/-- The no-action outcome: nothing attempted, nothing deleted. -/
def ReapResult.noop : ReapResult :=
  { expired := false, attemptedFiles := [], failedDeletions := 0,
    recordDeleted := false }

/-- One task's slice of `cleanup_expired_tasks` (transcription.py lines
275-366): an absent key is skipped, the expiry timestamp is selected by status
and parsed (`datetime.fromisoformat`, abstracted by `parse`), fresh tasks are
left alone, and for an expired task every targeted file plus the task directory
is attempted and the Redis key is deleted only when no attempt failed. -/
def reapTask (now expiry : Int) (parse : String → Option Int)
    (cacheDir task_id : String) (rec : Option Metadata)
    (fs : String → FState) (dfs : DirFS) : ReapResult :=
  match rec with
  | none => ReapResult.noop
  | some m =>
    let ts := selectTimestamp m
    if !truthy ts then ReapResult.noop
    else
      match parse (ts.getD "") with
      | none => ReapResult.noop
      | some t =>
        if now - t > expiry then
          let files := filesToAttemptDelete cacheDir m
          let fails := fileFailures fs files +
            dirFailures dfs files (pjoin cacheDir task_id)
          { expired := true, attemptedFiles := files,
            failedDeletions := fails, recordDeleted := fails == 0 }
        else ReapResult.noop

/-! ## Task Dispatcher (`create_and_dispatch_transcription` and
`dispatch_transcription_task`, main.py lines 178-280) -/

/-- The three ingress paths. -/
inductive TaskType
  | file_upload
  | url_download
  | s3_download
  deriving DecidableEq, Repr

/-- Wire string of a task type. -/
def TaskType.str : TaskType → String
  | TaskType.file_upload => "file_upload"
  | TaskType.url_download => "url_download"
  | TaskType.s3_download => "s3_download"

/-- The initial metadata document written by `create_and_dispatch_transcription`
(main.py lines 190-204): provenance fields, status `PENDING_UPLOADED` for file
upload and `PENDING_DOWNLOADED` otherwise, `upload_time` or `download_time`
accordingly, plus the `additional_metadata` contributions (`original_url` for
URL ingress, `original_s3_input_path` for object-store ingress). -/
def createMeta (ttype : TaskType) (client_id : String)
    (s3_results_path : Option String) (original_filename saved_filename : String)
    (now : String) (original_url original_s3_input_path : Option String) :
    Metadata :=
  { emptyMeta with
     client_id := some client_id,
     status := some (if ttype = TaskType.file_upload then Status.pendingUploaded
       else Status.pendingDownloaded),
     s3_results_path := s3_results_path,
     original_filename := some original_filename,
     saved_filename := some saved_filename,
     upload_time := if ttype = TaskType.file_upload then some now else none,
     download_time := if ttype = TaskType.file_upload then none else some now,
     task_type := some ttype.str,
     original_url := original_url,
     original_s3_input_path := original_s3_input_path }

/-- Environment of one dispatch: the Celery task import failed (no enqueue call
is made), or the single `transcribe_audio_task.delay` call returns an id or
raises. -/
inductive DispatchEnv
  | unavailable
  | enqueueOk (celery_task_id : String)
  | enqueueRaises (err : String)
  deriving DecidableEq, Repr

/-- Result of `dispatch_transcription_task`: the store after the inline
read-modify-write, and how many `delay` calls were made. -/
structure DispatchResult where
  store : Store
  delayCalls : Nat

/-- `dispatch_transcription_task` (main.py lines 225-280).  When Celery is
unavailable no enqueue call happens and the record (when present) is marked
`FAILED`; on a successful enqueue the record gets `PENDING_CELERY_DISPATCH`
and the Celery task id; when `delay` raises the record is marked `FAILED` with
the reason.  All three paths stamp `celery_dispatch_time` and none retries. -/
def dispatch_transcription_task (store : Store) (task_id : String)
    (env : DispatchEnv) (now : String) : DispatchResult :=
  let key := taskKey task_id
  match env with
  | DispatchEnv.unavailable =>
    match store key with
    | some metadata =>
      { store := store.set key { metadata with
          status := some Status.failed,
          error_message := some "Celery worker not available",
          celery_dispatch_time := some now },
        delayCalls := 0 }
    | none => { store := store, delayCalls := 0 }
  | DispatchEnv.enqueueOk cid =>
    match store key with
    | some metadata =>
      { store := store.set key { metadata with
          status := some Status.pendingCeleryDispatch,
          celery_task_id := some cid,
          celery_dispatch_time := some now },
        delayCalls := 1 }
    | none => { store := store, delayCalls := 1 }
  | DispatchEnv.enqueueRaises e =>
    match store key with
    | some metadata =>
      { store := store.set key { metadata with
          status := some Status.failed,
          error_message := some ("Failed to dispatch Celery task: " ++ e),
          celery_dispatch_time := some now },
        delayCalls := 1 }
    | none => { store := store, delayCalls := 1 }

/-! ## Worker Executor (`transcribe_audio_task`, transcription.py lines
126-231) -/

/-- Arguments and ambient values of one delivery of the work unit. -/
structure ExecParams where
  task_id : String
  audio_path_in_cache : String
  client_id : String
  s3_path_suffix : Option String := none
  original_filename : Option String := none
  celery_request_id : String
  worker_hostname : String
  start_time : String
  end_time : String

/-- Characters kept by the worker's output-name sanitizer (transcription.py
line 140): alphanumeric, `.`, `_` or `-`. -/
def keepCharExec (c : Char) : Bool :=
  c.isAlphanum || c = '.' || c = '_' || c = '-'

/-- `safe_original_filename_part` (transcription.py line 140): sanitize
`original_filename or "transcription"` and keep the first 100 characters. -/
def execSafeNamePart (original_filename : Option String) : String :=
  let base := if truthy original_filename then original_filename.getD ""
    else "transcription"
  String.mk ((base.toList.map (fun c => if keepCharExec c then c else '_')).take 100)

/-- `output_json_filename_relative` (transcription.py line 144). -/
def outputJsonRel (p : ExecParams) : String :=
  pjoin p.task_id (p.task_id ++ "_" ++ execSafeNamePart p.original_filename ++ ".json")

/-- `output_md_filename_relative` (transcription.py line 145). -/
def outputMdRel (p : ExecParams) : String :=
  pjoin p.task_id (p.task_id ++ "_" ++ execSafeNamePart p.original_filename ++ ".md")

/-- How one delivery goes: the source audio is missing (fatal), the pipeline or
an artifact write raises, or everything up to the artifact writes succeeds and
the two `upload_to_s3` calls (made only when a sink suffix was requested)
return the recorded URLs (`none` models an upload failure, `upload_to_s3`
returning `None`). -/
inductive ExecOutcome
  | audioMissing
  | pipelineRaises (err : String)
  | success (s3_json_url s3_md_url : Option String)
  deriving DecidableEq, Repr

/-- The `FileNotFoundError` message (transcription.py line 174). -/
def audioMissingMsg (p : ExecParams) : String :=
  "Input audio file " ++ p.audio_path_in_cache ++ " not found for task " ++ p.task_id

/-- Final status computed at transcription.py lines 208-211: `COMPLETED`, or
`COMPLETED_WITH_S3_UPLOAD_FAILURES` when a sink suffix was requested and not
both uploads returned a URL. -/
def execFinalStatus (p : ExecParams) (uj um : Option String) : Status :=
  if truthy p.s3_path_suffix && !(truthy uj && truthy um) then
    Status.completedWithS3UploadFailures
  else Status.completed

/-- The sequence of `update_redis_metadata` dictionaries written by one
delivery, in program order: the `PROCESSING` pickup write; then on success the
artifact-paths write, the S3-URLs write when a sink suffix was requested, and
the final-status write; on a raise, the `FAILED` write with the captured
message. -/
def execUpdates (p : ExecParams) (o : ExecOutcome) : List Metadata :=
  let u1 : Metadata := { emptyMeta with
    status := some Status.processing,
    celery_task_id := some p.celery_request_id,
    processing_start_time := some p.start_time,
    worker_node := some p.worker_hostname }
  match o with
  | ExecOutcome.audioMissing =>
    [u1, { emptyMeta with
      status := some Status.failed,
      error_message := some (audioMissingMsg p),
      processing_end_time := some p.end_time }]
  | ExecOutcome.pipelineRaises e =>
    [u1, { emptyMeta with
      status := some Status.failed,
      error_message := some e,
      processing_end_time := some p.end_time }]
  | ExecOutcome.success uj um =>
    [u1, { emptyMeta with
      transcribed_json_file := some (outputJsonRel p),
      transcribed_md_file := some (outputMdRel p) }]
    ++ (if truthy p.s3_path_suffix then
          [{ emptyMeta with s3_json_url := uj, s3_md_url := um }] else [])
    ++ [{ emptyMeta with
      status := some (execFinalStatus p uj um),
      processing_end_time := some p.end_time }]

/-- Apply a sequence of metadata-update dictionaries through
`update_redis_metadata`. -/
def applyUpdates (store : Store) (task_id : String) (upds : List Metadata)
    (now : String) : Store :=
  upds.foldl (fun s u => update_redis_metadata s task_id u now) store

/-- The exception (if any) the delivery re-raises to the Celery framework. -/
def execRaised (p : ExecParams) (o : ExecOutcome) : Option String :=
  match o with
  | ExecOutcome.audioMissing => some (audioMissingMsg p)
  | ExecOutcome.pipelineRaises e => some e
  | ExecOutcome.success _ _ => none

/-- One delivery of `transcribe_audio_task`: the store after all metadata
writes, paired with the propagated exception. -/
def transcribe_audio_task (store : Store) (p : ExecParams) (o : ExecOutcome)
    (now : String) : Store × Option String :=
  (applyUpdates store p.task_id (execUpdates p o) now, execRaised p o)

/-! ## Access Gateway (main.py lines 461-586) -/

/-- The owner check shared by the three access operations (`if client_id and
metadata.get("client_id") != client_id`): only performed when a truthy owner
tag was supplied, and compares it against the record's `client_id`. -/
def ownerMismatch (client_id : Option String) (m : Metadata) : Bool :=
  truthy client_id && decide (m.client_id ≠ client_id)

/-- Response of `GET /status/{task_id}` (main.py lines 461-476). -/
inductive StatusResp
  | notFound
  | accessDenied
  | ok (task_id : String) (status : Option Status) (details : Metadata)
  deriving DecidableEq, Repr

/-- `get_task_status`: fetch the record (absent means `NotFound`), check the
owner tag, then return the status plus full record. -/
def get_task_status (store : Store) (task_id : String)
    (client_id : Option String) : StatusResp :=
  match store (taskKey task_id) with
  | none => StatusResp.notFound
  | some m =>
    if ownerMismatch client_id m then StatusResp.accessDenied
    else StatusResp.ok task_id m.status m

/-- Response of `GET /download/{task_id}` (main.py lines 479-525). -/
inductive DownloadResp
  | badRequestFmt
  | notFound
  | accessDenied
  | s3Redirect
  | notCompleted (cur : Option Status)
  | filePathMissing
  | fileMissing
  | streamed (path : String)
  deriving DecidableEq, Repr

/-- `download_transcription_file`: format validation, record fetch, owner
check, object-storage redirect, completed-status check, artifact-path lookup,
file-existence check, then the `last_download_time` stamp and the streamed
file.  `CACHE_DIR` is the literal `/app/cache` of main.py line 35.  Returns the
response together with the possibly-updated store. -/
def download_transcription_file (store : Store) (task_id fmt : String)
    (client_id : Option String) (fileExists : String → Bool) (now : String) :
    DownloadResp × Store :=
  if fmt ≠ "json" ∧ fmt ≠ "md" then (DownloadResp.badRequestFmt, store)
  else
    match store (taskKey task_id) with
    | none => (DownloadResp.notFound, store)
    | some m =>
      if ownerMismatch client_id m then (DownloadResp.accessDenied, store)
      else if truthy m.s3_results_path then (DownloadResp.s3Redirect, store)
      else if m.status ≠ some Status.completed then
        (DownloadResp.notCompleted m.status, store)
      else
        let rel := if fmt = "json" then m.transcribed_json_file
          else m.transcribed_md_file
        if !truthy rel then (DownloadResp.filePathMissing, store)
        else
          let path := pjoin "/app/cache" (rel.getD "")
          if !fileExists path then (DownloadResp.fileMissing, store)
          else (DownloadResp.streamed path,
            store.set (taskKey task_id) { m with last_download_time := some now })

/-- The counts reported by `DELETE /release/{task_id}`. -/
structure ReleaseInfo where
  deleted_cache_files : Nat
  files_not_found_in_cache : Nat
  errors_deleting_files : List String
  redis_key_deleted : Bool
  deriving DecidableEq, Repr

/-- Response of `DELETE /release/{task_id}` (main.py lines 528-586). -/
inductive ReleaseResp
  | notFound
  | accessDenied
  | ok (info : ReleaseInfo)
  deriving DecidableEq, Repr

/-- `release_task_resources`: record fetch, owner check, then deletion of the
source audio (skipped when `s3_results_path` is set), the two artifacts, and
the Redis key if and only if no file deletion raised. -/
def release_task_resources (store : Store) (task_id : String)
    (client_id : Option String) (fs : String → FState) : ReleaseResp × Store :=
  match store (taskKey task_id) with
  | none => (ReleaseResp.notFound, store)
  | some m =>
    if ownerMismatch client_id m then (ReleaseResp.accessDenied, store)
    else
      let files :=
        (if truthy m.saved_filename && !truthy m.s3_results_path
          then [pjoin "/app/cache" (m.saved_filename.getD "")] else [])
        ++ (if truthy m.transcribed_json_file
          then [pjoin "/app/cache" (m.transcribed_json_file.getD "")] else [])
        ++ (if truthy m.transcribed_md_file
          then [pjoin "/app/cache" (m.transcribed_md_file.getD "")] else [])
      let deleted := files.countP (fun p => decide (fs p = FState.present))
      let notfound := files.countP (fun p => decide (fs p = FState.absent))
      let errs := files.filter (fun p => (fs p).isLocked)
      if errs = [] then
        (ReleaseResp.ok ⟨deleted, notfound, errs, true⟩,
          store.del (taskKey task_id))
      else
        (ReleaseResp.ok ⟨deleted, notfound, errs, false⟩, store)

/-! ## Status transition graph (spec section 4.3) -/

/-- The record's status as stored. -/
def statusAt (store : Store) (task_id : String) : Option Status :=
  match store (taskKey task_id) with
  | some m => m.status
  | none => none

/-- The record's `error_message` as stored. -/
def errorAt (store : Store) (task_id : String) : Option String :=
  match store (taskKey task_id) with
  | some m => m.error_message
  | none => none

/-- The record's `transcribed_json_file` as stored. -/
def jsonFileAt (store : Store) (task_id : String) : Option String :=
  match store (taskKey task_id) with
  | some m => m.transcribed_json_file
  | none => none

/-- The record's `transcribed_md_file` as stored. -/
def mdFileAt (store : Store) (task_id : String) : Option String :=
  match store (taskKey task_id) with
  | some m => m.transcribed_md_file
  | none => none

/-- The record's `last_download_time` as stored. -/
def lastDownloadAt (store : Store) (task_id : String) : Option String :=
  match store (taskKey task_id) with
  | some m => m.last_download_time
  | none => none

/-- Rank of a status along the section 4.3 graph. -/
def statusRank : Status → Nat
  | Status.pendingUploaded => 0
  | Status.pendingDownloaded => 0
  | Status.pendingCeleryDispatch => 1
  | Status.processing => 2
  | Status.retrying => 2
  | Status.completed => 3
  | Status.completedWithS3UploadFailures => 3
  | Status.failed => 3

/-- Terminal statuses of the graph. -/
def Status.isTerminal : Status → Bool
  | Status.completed => true
  | Status.completedWithS3UploadFailures => true
  | Status.failed => true
  | _ => false

/-- One observed status write is forward when the rank does not decrease and a
terminal status is never left. -/
def forwardStep (a b : Option Status) : Bool :=
  match a, b with
  | none, _ => true
  | some _, none => false
  | some x, some y =>
    decide (statusRank x ≤ statusRank y) && (!x.isTerminal || decide (x = y))

/-- A whole observed status sequence is forward when every adjacent pair is. -/
def forwardTrace : List (Option Status) → Bool
  | [] => true
  | [_] => true
  | a :: b :: rest => forwardStep a b && forwardTrace (b :: rest)

/-- The record's status observed after each metadata write of a sequence. -/
def statusTrace (store : Store) (task_id : String) (upds : List Metadata)
    (now : String) : List (Option Status) :=
  match upds with
  | [] => []
  | u :: rest =>
    let s2 := update_redis_metadata store task_id u now
    statusAt s2 task_id :: statusTrace s2 task_id rest now

/-- Pure recurrence of `statusTrace`: each write merges its own status field
over the previous one. -/
def statusScan (cur : Option Status) : List Metadata → List (Option Status)
  | [] => []
  | u :: rest =>
    orDS u.status cur :: statusScan (orDS u.status cur) rest

/-- Observed statuses of the intended single-delivery lifecycle: the initial
record write, one dispatch, and (only when the enqueue succeeded, since only
then a work unit exists) one delivery to the Executor. -/
def singleDeliveryTrace (ttype : TaskType) (client_id : String)
    (s3rp : Option String) (ofn sfn : String)
    (ourl os3 : Option String) (env : DispatchEnv) (p : ExecParams)
    (o : ExecOutcome) (t0 t1 t2 : String) : List (Option Status) :=
  let s1 := Store.set (fun _ => none) (taskKey p.task_id)
      (createMeta ttype client_id s3rp ofn sfn t0 ourl os3)
  let s2 := (dispatch_transcription_task s1 p.task_id env t1).store
  statusAt s1 p.task_id :: statusAt s2 p.task_id ::
    (match env with
     | DispatchEnv.enqueueOk _ => statusTrace s2 p.task_id (execUpdates p o) t2
     | _ => [])

/-- A concrete executor-parameter block used to instantiate theorems. -/
def wParams : ExecParams :=
  { task_id := "t1", audio_path_in_cache := "/app/cache/t1_a.wav",
    client_id := "c1", s3_path_suffix := some "results/run1",
    original_filename := some "a.wav", celery_request_id := "cel1",
    worker_hostname := "w1", start_time := "T2", end_time := "T3" }

/-- The empty store. -/
def emptyStore : Store := fun _ => none

/-- A concrete one-record store used to instantiate theorems. -/
def wStore : Store := Store.set emptyStore (taskKey "t1") emptyMeta

/-- A concrete completed local-results record used to instantiate theorems. -/
def wMetaCompleted : Metadata :=
  { emptyMeta with
     status := some Status.completed,
     client_id := some "c1",
     transcribed_json_file := some "t1/t1_a.json",
     transcribed_md_file := some "t1/t1_a.md" }

/-- A concrete store holding `wMetaCompleted` under task id `t1`. -/
def wStoreCompleted : Store := Store.set emptyStore (taskKey "t1") wMetaCompleted

/-- A concrete run in which the same work unit is delivered to the Executor
twice (the at-least-once delivery the queue guarantees): upload ingress,
successful dispatch, a successful first delivery, then a redelivery. -/
def doubleDeliveryTraceExample : List (Option Status) :=
  let p : ExecParams := {
    task_id := "t1", audio_path_in_cache := "/app/cache/t1_a.wav",
    client_id := "c1", s3_path_suffix := none, original_filename := some "a.wav",
    celery_request_id := "cel1", worker_hostname := "w1",
    start_time := "T2", end_time := "T3" }
  let s1 := Store.set (fun _ => none) (taskKey "t1")
      (createMeta TaskType.file_upload "c1" none "a.wav" "t1_a.wav" "T0" none none)
  let s2 := (dispatch_transcription_task s1 "t1" (DispatchEnv.enqueueOk "cel1") "T1").store
  let s3 := (transcribe_audio_task s2 p (ExecOutcome.success none none) "T2").1
  statusAt s1 "t1" :: statusAt s2 "t1" ::
    (statusTrace s2 "t1" (execUpdates p (ExecOutcome.success none none)) "T2"
     ++ statusTrace s3 "t1" (execUpdates p (ExecOutcome.success none none)) "T4")

theorem orD_none_right (a : Option String) : orD a none = a := by
  cases a <;> rfl

theorem orDS_none_right (a : Option Status) : orDS a none = a := by
  cases a <;> rfl

theorem isLocked_iff (x : FState) : x.isLocked = true ↔ x = FState.locked := by
  cases x <;> simp [FState.isLocked]

theorem fileFailures_eq_zero_iff (fs : String → FState) (files : List String) :
    fileFailures fs files = 0 ↔ ∀ p ∈ files, fs p ≠ FState.locked := by
  unfold fileFailures
  rw [List.countP_eq_zero]
  constructor
  · intro h p hp
    intro hlock
    exact h p hp ((isLocked_iff (fs p)).mpr hlock)
  · intro h p hp hl
    exact h p hp ((isLocked_iff (fs p)).mp hl)

theorem dirFailures_eq_zero_iff (dfs : DirFS) (files : List String)
    (dirPath : String) :
    dirFailures dfs files dirPath = 0 ↔
      (dfs.dirExists = true →
        (dfs.entries = [] → dfs.rmdirEmptyOk = true) ∧
        (dfs.entries ≠ [] →
          dfs.entries.filter (fun f => files.contains (pjoin dirPath f)) ≠ [])) := by
  unfold dirFailures
  by_cases hd : dfs.dirExists = true
  · simp only [hd, if_true, forall_true_left]
    by_cases he : dfs.entries = []
    · cases hrm : dfs.rmdirEmptyOk <;> simp [he, hrm]
    · by_cases hf : dfs.entries.filter (fun f => files.contains (pjoin dirPath f)) = [] <;>
        simp [he, hf]
  · simp [hd]

/-- Claim C1: for a swept task whose age exceeds the retention window, the
metadata record is deleted if and only if every file deletion attempt and every
attempted task-directory removal succeeded (a missing file counts as success);
any raised deletion error leaves the record in place, and sweeping a task whose
key is already absent is a no-op. -/
theorem reaper_record_deletion_iff (now expiry t : Int)
    (parse : String → Option Int) (cacheDir task_id : String) (m : Metadata)
    (fs : String → FState) (dfs : DirFS)
    (hts : truthy (selectTimestamp m) = true)
    (hparse : parse ((selectTimestamp m).getD "") = some t)
    (hexp : now - t > expiry) :
    ((reapTask now expiry parse cacheDir task_id (some m) fs dfs).recordDeleted = true ↔
      ((∀ p ∈ (reapTask now expiry parse cacheDir task_id (some m) fs dfs).attemptedFiles,
          fs p ≠ FState.locked) ∧
       (dfs.dirExists = true →
         (dfs.entries = [] → dfs.rmdirEmptyOk = true) ∧
         (dfs.entries ≠ [] →
           dfs.entries.filter (fun f =>
             ((reapTask now expiry parse cacheDir task_id (some m) fs dfs).attemptedFiles).contains
               (pjoin (pjoin cacheDir task_id) f)) ≠ [])))) ∧
    reapTask now expiry parse cacheDir task_id none fs dfs = ReapResult.noop := by
  have hr : reapTask now expiry parse cacheDir task_id (some m) fs dfs =
      { expired := true, attemptedFiles := filesToAttemptDelete cacheDir m,
        failedDeletions := fileFailures fs (filesToAttemptDelete cacheDir m) +
          dirFailures dfs (filesToAttemptDelete cacheDir m) (pjoin cacheDir task_id),
        recordDeleted := (fileFailures fs (filesToAttemptDelete cacheDir m) +
          dirFailures dfs (filesToAttemptDelete cacheDir m) (pjoin cacheDir task_id)) == 0 } := by
    simp [reapTask, hts, hparse, hexp]
  constructor
  · rw [hr]
    simp only [beq_iff_eq, Nat.add_eq_zero]
    rw [fileFailures_eq_zero_iff, dirFailures_eq_zero_iff]
  · rfl

/-- Witness for C1 at a concrete expired completed task with all files present
and an empty removable task directory: the record is deleted, and the sweep on
the already-absent key is a no-op. -/
theorem reaper_record_deletion_iff_witness :
    ((reapTask 604801 604800
        (fun s => if s = "2024-01-01T00:00:00" then some 0 else none)
        "/app/cache" "t1"
        (some { emptyMeta with
                 status := some Status.completed,
                 last_download_time := some "2024-01-01T00:00:00",
                 saved_filename := some "t1_a.wav",
                 transcribed_json_file := some "t1/t1_a.json",
                 transcribed_md_file := some "t1/t1_a.md" })
        (fun _ => FState.present) ⟨true, [], true⟩).recordDeleted = true ↔
      ((∀ p ∈ (reapTask 604801 604800
          (fun s => if s = "2024-01-01T00:00:00" then some 0 else none)
          "/app/cache" "t1"
          (some { emptyMeta with
                   status := some Status.completed,
                   last_download_time := some "2024-01-01T00:00:00",
                   saved_filename := some "t1_a.wav",
                   transcribed_json_file := some "t1/t1_a.json",
                   transcribed_md_file := some "t1/t1_a.md" })
          (fun _ => FState.present) ⟨true, [], true⟩).attemptedFiles,
          (fun _ => FState.present : String → FState) p ≠ FState.locked) ∧
       ((true : Bool) = true →
         (([] : List String) = [] → (true : Bool) = true) ∧
         (([] : List String) ≠ [] →
           ([] : List String).filter (fun f =>
             ((reapTask 604801 604800
               (fun s => if s = "2024-01-01T00:00:00" then some 0 else none)
               "/app/cache" "t1"
               (some { emptyMeta with
                        status := some Status.completed,
                        last_download_time := some "2024-01-01T00:00:00",
                        saved_filename := some "t1_a.wav",
                        transcribed_json_file := some "t1/t1_a.json",
                        transcribed_md_file := some "t1/t1_a.md" })
               (fun _ => FState.present) ⟨true, [], true⟩).attemptedFiles).contains
               (pjoin (pjoin "/app/cache" "t1") f)) ≠ [])))) ∧
    reapTask 604801 604800
        (fun s => if s = "2024-01-01T00:00:00" then some 0 else none)
        "/app/cache" "t1" none (fun _ => FState.present) ⟨true, [], true⟩ =
      ReapResult.noop :=
  reaper_record_deletion_iff 604801 604800 0
    (fun s => if s = "2024-01-01T00:00:00" then some 0 else none)
    "/app/cache" "t1"
    { emptyMeta with
       status := some Status.completed,
       last_download_time := some "2024-01-01T00:00:00",
       saved_filename := some "t1_a.wav",
       transcribed_json_file := some "t1/t1_a.json",
       transcribed_md_file := some "t1/t1_a.md" }
    (fun _ => FState.present) ⟨true, [], true⟩
    (by decide) (by decide) (by decide)

/-- Claim C2 (code bug): the Reaper's source-audio guard reads the metadata key
`s3_path`, which no component ever writes — the dispatcher records the sink
under `s3_results_path` and the manual-release guard checks that key — so for a
record created with an object-storage sink the source audio is still placed on
the Reaper's deletion list. -/
theorem reaper_deletes_audio_of_s3_sink_task :
    (createMeta TaskType.file_upload "c1" (some "results/run1") "a.wav"
        "t1_a.wav" "T0" none none).s3_path = none ∧
    (createMeta TaskType.file_upload "c1" (some "results/run1") "a.wav"
        "t1_a.wav" "T0" none none).s3_results_path = some "results/run1" ∧
    filesToAttemptDelete "/app/cache"
        (createMeta TaskType.file_upload "c1" (some "results/run1") "a.wav"
          "t1_a.wav" "T0" none none) = ["/app/cache/t1_a.wav"] := by
  refine ⟨rfl, rfl, ?_⟩
  decide

/-- Claim C8: the expiry timestamp is chosen by status — `FAILED` uses
processing end time falling back to last-update time; the two completed
statuses use last-download time, then processing end time, then last-update
time; every other status uses one of the upload/download/dispatch times when
any is usable, falling back to last-update time — and when no usable timestamp
exists or it cannot be parsed the task is skipped and nothing is deleted. -/
theorem reaper_timestamp_choice (now expiry : Int) (parse : String → Option Int)
    (cacheDir task_id : String) (m : Metadata) (fs : String → FState)
    (dfs : DirFS) :
    (m.status = some Status.failed →
      (truthy m.processing_end_time = true →
        selectTimestamp m = m.processing_end_time) ∧
      (truthy m.processing_end_time = false →
        selectTimestamp m = m.last_updated_time)) ∧
    ((m.status = some Status.completed ∨
        m.status = some Status.completedWithS3UploadFailures) →
      (truthy m.last_download_time = true →
        selectTimestamp m = m.last_download_time) ∧
      (truthy m.last_download_time = false → truthy m.processing_end_time = true →
        selectTimestamp m = m.processing_end_time) ∧
      (truthy m.last_download_time = false → truthy m.processing_end_time = false →
        selectTimestamp m = m.last_updated_time)) ∧
    (m.status ≠ some Status.failed → m.status ≠ some Status.completed →
      m.status ≠ some Status.completedWithS3UploadFailures →
      ((truthy m.upload_time || truthy m.download_time ||
          truthy m.celery_dispatch_time) = true →
        ((selectTimestamp m = m.upload_time ∧ truthy m.upload_time = true) ∨
         (selectTimestamp m = m.download_time ∧ truthy m.download_time = true) ∨
         (selectTimestamp m = m.celery_dispatch_time ∧
           truthy m.celery_dispatch_time = true))) ∧
      ((truthy m.upload_time || truthy m.download_time ||
          truthy m.celery_dispatch_time) = false →
        selectTimestamp m = m.last_updated_time)) ∧
    (truthy (selectTimestamp m) = false →
      reapTask now expiry parse cacheDir task_id (some m) fs dfs =
        ReapResult.noop) ∧
    (truthy (selectTimestamp m) = true →
      parse ((selectTimestamp m).getD "") = none →
      reapTask now expiry parse cacheDir task_id (some m) fs dfs =
        ReapResult.noop) := by
  refine ⟨?_, ?_, ?_, ?_, ?_⟩
  · intro h
    refine ⟨?_, ?_⟩ <;> intro htr <;> simp [selectTimestamp, h, orT, htr]
  · intro h
    have hsel : selectTimestamp m =
        orT m.last_download_time (orT m.processing_end_time m.last_updated_time) := by
      rcases h with h | h <;> simp [selectTimestamp, h]
    refine ⟨?_, ?_, ?_⟩
    · intro h1
      simp [hsel, orT, h1]
    · intro h1 h2
      simp [hsel, orT, h1, h2]
    · intro h1 h2
      simp [hsel, orT, h1, h2]
  · intro h1 h2 h3
    have hsel : selectTimestamp m =
        orT m.upload_time (orT m.download_time
          (orT m.celery_dispatch_time m.last_updated_time)) := by
      cases hst : m.status with
      | none => simp [selectTimestamp, hst]
      | some s =>
        cases s
        case failed => exact absurd hst h1
        case completed => exact absurd hst h2
        case completedWithS3UploadFailures => exact absurd hst h3
        all_goals simp [selectTimestamp, hst]
    cases hu : truthy m.upload_time <;>
      cases hd0 : truthy m.download_time <;>
        cases hc : truthy m.celery_dispatch_time <;>
          simp [hsel, orT, hu, hd0, hc]
  · intro h
    simp [reapTask, h]
  · intro h1 h2
    simp [reapTask, h1, h2]

/-- Witness for C8 at a concrete `PROCESSING` record whose only usable
timestamp is the dispatch time. -/
theorem reaper_timestamp_choice_witness :
    (({ emptyMeta with
         status := some Status.processing,
         celery_dispatch_time := some "2024-01-01T00:00:00" } : Metadata).status =
        some Status.failed →
      (truthy ({ emptyMeta with
         status := some Status.processing,
         celery_dispatch_time := some "2024-01-01T00:00:00" } : Metadata).processing_end_time = true →
        selectTimestamp { emptyMeta with
         status := some Status.processing,
         celery_dispatch_time := some "2024-01-01T00:00:00" } =
          ({ emptyMeta with
             status := some Status.processing,
             celery_dispatch_time := some "2024-01-01T00:00:00" } : Metadata).processing_end_time) ∧
      (truthy ({ emptyMeta with
         status := some Status.processing,
         celery_dispatch_time := some "2024-01-01T00:00:00" } : Metadata).processing_end_time = false →
        selectTimestamp { emptyMeta with
         status := some Status.processing,
         celery_dispatch_time := some "2024-01-01T00:00:00" } =
          ({ emptyMeta with
             status := some Status.processing,
             celery_dispatch_time := some "2024-01-01T00:00:00" } : Metadata).last_updated_time)) ∧
    ((({ emptyMeta with
         status := some Status.processing,
         celery_dispatch_time := some "2024-01-01T00:00:00" } : Metadata).status =
          some Status.completed ∨
       ({ emptyMeta with
         status := some Status.processing,
         celery_dispatch_time := some "2024-01-01T00:00:00" } : Metadata).status =
          some Status.completedWithS3UploadFailures) →
      (truthy ({ emptyMeta with
         status := some Status.processing,
         celery_dispatch_time := some "2024-01-01T00:00:00" } : Metadata).last_download_time = true →
        selectTimestamp { emptyMeta with
         status := some Status.processing,
         celery_dispatch_time := some "2024-01-01T00:00:00" } =
          ({ emptyMeta with
             status := some Status.processing,
             celery_dispatch_time := some "2024-01-01T00:00:00" } : Metadata).last_download_time) ∧
      (truthy ({ emptyMeta with
         status := some Status.processing,
         celery_dispatch_time := some "2024-01-01T00:00:00" } : Metadata).last_download_time = false →
       truthy ({ emptyMeta with
         status := some Status.processing,
         celery_dispatch_time := some "2024-01-01T00:00:00" } : Metadata).processing_end_time = true →
        selectTimestamp { emptyMeta with
         status := some Status.processing,
         celery_dispatch_time := some "2024-01-01T00:00:00" } =
          ({ emptyMeta with
             status := some Status.processing,
             celery_dispatch_time := some "2024-01-01T00:00:00" } : Metadata).processing_end_time) ∧
      (truthy ({ emptyMeta with
         status := some Status.processing,
         celery_dispatch_time := some "2024-01-01T00:00:00" } : Metadata).last_download_time = false →
       truthy ({ emptyMeta with
         status := some Status.processing,
         celery_dispatch_time := some "2024-01-01T00:00:00" } : Metadata).processing_end_time = false →
        selectTimestamp { emptyMeta with
         status := some Status.processing,
         celery_dispatch_time := some "2024-01-01T00:00:00" } =
          ({ emptyMeta with
             status := some Status.processing,
             celery_dispatch_time := some "2024-01-01T00:00:00" } : Metadata).last_updated_time)) ∧
    (({ emptyMeta with
        status := some Status.processing,
        celery_dispatch_time := some "2024-01-01T00:00:00" } : Metadata).status ≠
        some Status.failed →
     ({ emptyMeta with
        status := some Status.processing,
        celery_dispatch_time := some "2024-01-01T00:00:00" } : Metadata).status ≠
        some Status.completed →
     ({ emptyMeta with
        status := some Status.processing,
        celery_dispatch_time := some "2024-01-01T00:00:00" } : Metadata).status ≠
        some Status.completedWithS3UploadFailures →
      ((truthy ({ emptyMeta with
          status := some Status.processing,
          celery_dispatch_time := some "2024-01-01T00:00:00" } : Metadata).upload_time ||
        truthy ({ emptyMeta with
          status := some Status.processing,
          celery_dispatch_time := some "2024-01-01T00:00:00" } : Metadata).download_time ||
        truthy ({ emptyMeta with
          status := some Status.processing,
          celery_dispatch_time := some "2024-01-01T00:00:00" } : Metadata).celery_dispatch_time) = true →
        ((selectTimestamp { emptyMeta with
            status := some Status.processing,
            celery_dispatch_time := some "2024-01-01T00:00:00" } =
           ({ emptyMeta with
              status := some Status.processing,
              celery_dispatch_time := some "2024-01-01T00:00:00" } : Metadata).upload_time ∧
          truthy ({ emptyMeta with
            status := some Status.processing,
            celery_dispatch_time := some "2024-01-01T00:00:00" } : Metadata).upload_time = true) ∨
         (selectTimestamp { emptyMeta with
            status := some Status.processing,
            celery_dispatch_time := some "2024-01-01T00:00:00" } =
           ({ emptyMeta with
              status := some Status.processing,
              celery_dispatch_time := some "2024-01-01T00:00:00" } : Metadata).download_time ∧
          truthy ({ emptyMeta with
            status := some Status.processing,
            celery_dispatch_time := some "2024-01-01T00:00:00" } : Metadata).download_time = true) ∨
         (selectTimestamp { emptyMeta with
            status := some Status.processing,
            celery_dispatch_time := some "2024-01-01T00:00:00" } =
           ({ emptyMeta with
              status := some Status.processing,
              celery_dispatch_time := some "2024-01-01T00:00:00" } : Metadata).celery_dispatch_time ∧
          truthy ({ emptyMeta with
            status := some Status.processing,
            celery_dispatch_time := some "2024-01-01T00:00:00" } : Metadata).celery_dispatch_time = true))) ∧
      ((truthy ({ emptyMeta with
          status := some Status.processing,
          celery_dispatch_time := some "2024-01-01T00:00:00" } : Metadata).upload_time ||
        truthy ({ emptyMeta with
          status := some Status.processing,
          celery_dispatch_time := some "2024-01-01T00:00:00" } : Metadata).download_time ||
        truthy ({ emptyMeta with
          status := some Status.processing,
          celery_dispatch_time := some "2024-01-01T00:00:00" } : Metadata).celery_dispatch_time) = false →
        selectTimestamp { emptyMeta with
          status := some Status.processing,
          celery_dispatch_time := some "2024-01-01T00:00:00" } =
          ({ emptyMeta with
             status := some Status.processing,
             celery_dispatch_time := some "2024-01-01T00:00:00" } : Metadata).last_updated_time)) ∧
    (truthy (selectTimestamp { emptyMeta with
        status := some Status.processing,
        celery_dispatch_time := some "2024-01-01T00:00:00" }) = false →
      reapTask 604801 604800 (fun _ => some 0) "/app/cache" "t1"
        (some { emptyMeta with
           status := some Status.processing,
           celery_dispatch_time := some "2024-01-01T00:00:00" })
        (fun _ => FState.present) ⟨false, [], true⟩ = ReapResult.noop) ∧
    (truthy (selectTimestamp { emptyMeta with
        status := some Status.processing,
        celery_dispatch_time := some "2024-01-01T00:00:00" }) = true →
      (fun _ => some 0 : String → Option Int)
        ((selectTimestamp { emptyMeta with
           status := some Status.processing,
           celery_dispatch_time := some "2024-01-01T00:00:00" }).getD "") = none →
      reapTask 604801 604800 (fun _ => some 0) "/app/cache" "t1"
        (some { emptyMeta with
           status := some Status.processing,
           celery_dispatch_time := some "2024-01-01T00:00:00" })
        (fun _ => FState.present) ⟨false, [], true⟩ = ReapResult.noop) :=
  reaper_timestamp_choice 604801 604800 (fun _ => some 0) "/app/cache" "t1"
    { emptyMeta with
       status := some Status.processing,
       celery_dispatch_time := some "2024-01-01T00:00:00" }
    (fun _ => FState.present) ⟨false, [], true⟩

/-- Claim C9: calling `update_redis_metadata` on an absent key neither fails nor
no-ops: it writes a brand-new record equal to the supplied update fields plus a
fresh `last_updated_time`, so a task whose record was already deleted can be
resurrected as a partial record by a late Executor update. -/
theorem updateRedisMetadata_resurrects (store : Store) (task_id : String)
    (updates : Metadata) (now : String)
    (habsent : store (taskKey task_id) = none) :
    (update_redis_metadata store task_id updates now) (taskKey task_id) =
      some { updates with last_updated_time := some now } := by
  cases updates
  simp [update_redis_metadata, Store.set, habsent, mergeUpdates, emptyMeta,
    orD_none_right, orDS_none_right]

/-- Witness for C9: a concrete late status-update on an empty store creates the
partial record containing exactly that status and the fresh timestamp. -/
theorem updateRedisMetadata_resurrects_witness :
    (update_redis_metadata (fun _ => none) "t1"
        { emptyMeta with status := some Status.failed } "2024-01-01T00:00:00")
      (taskKey "t1") =
      some { emptyMeta with
              status := some Status.failed,
              last_updated_time := some "2024-01-01T00:00:00" } :=
  updateRedisMetadata_resurrects (fun _ => none) "t1"
    { emptyMeta with status := some Status.failed } "2024-01-01T00:00:00" rfl

theorem string_mk_eq_empty_iff (l : List Char) : (String.mk l = "") ↔ l = [] := by
  constructor
  · intro h
    have h2 : String.mk l = String.mk [] := h
    exact congrArg String.data h2
  · intro h
    subst h
    rfl

theorem keepChar_sanitizeChar (c : Char) : keepChar (sanitizeChar c) = true := by
  unfold sanitizeChar
  cases h : keepChar c
  · show keepChar '_' = true
    decide
  · show keepChar c = true
    exact h

/-- Counterexample to claim C10 as stated: with input `""` and the non-empty
default `"/"`, the sanitizer returns the default verbatim, which contains a
path separator and is an absolute path. -/
theorem sanitize_filename_unsafe_default :
    sanitize_filename "" "/" = "/" ∧
    ¬ (∀ c ∈ (sanitize_filename "" "/").toList, keepChar c = true) := by
  constructor
  · rfl
  · decide

/-- Claim C10, amended: for every input string, provided the default itself is
non-empty, at most 100 characters, and made only of kept characters (true of
every default the code passes: `audio.wav`, `uploaded_audio.wav`,
`downloaded_audio.wav`, `s3_audio.wav`), the sanitizer returns a non-empty
string of length at most 100 whose characters are all alphanumeric, `.`, or
`_`; in particular the result contains no path separator, so it cannot name an
absolute path or escape the cache root. -/
theorem sanitize_filename_safe (filename dflt : String)
    (hne : dflt ≠ "") (hlen : dflt.length ≤ 100)
    (hok : ∀ c ∈ dflt.toList, keepChar c = true) :
    sanitize_filename filename dflt ≠ "" ∧
    (sanitize_filename filename dflt).length ≤ 100 ∧
    (∀ c ∈ (sanitize_filename filename dflt).toList, keepChar c = true) ∧
    '/' ∉ (sanitize_filename filename dflt).toList ∧
    '\\' ∉ (sanitize_filename filename dflt).toList := by
  have hsep : ∀ s : String, (∀ c ∈ s.toList, keepChar c = true) →
      '/' ∉ s.toList ∧ '\\' ∉ s.toList := by
    intro s hs
    constructor
    · intro hmem
      have := hs _ hmem
      simp [keepChar] at this
    · intro hmem
      have := hs _ hmem
      simp [keepChar] at this
  have hkeepList : ∀ c ∈ filename.toList.map sanitizeChar, keepChar c = true := by
    intro c hc
    rcases List.mem_map.mp hc with ⟨a, _, rfl⟩
    exact keepChar_sanitizeChar a
  unfold sanitize_filename
  by_cases hbig : (String.mk (filename.toList.map sanitizeChar)).length > 100
  · simp only [hbig, if_true]
    have hlist : (String.mk (filename.toList.map sanitizeChar)).toList =
        filename.toList.map sanitizeChar := rfl
    rw [hlist]
    have hlen100 : (String.mk ((filename.toList.map sanitizeChar).take 100)).length =
        ((filename.toList.map sanitizeChar).take 100).length := rfl
    have htakekeep : ∀ c ∈ (filename.toList.map sanitizeChar).take 100,
        keepChar c = true := by
      intro c hc
      exact hkeepList c (List.mem_of_mem_take hc)
    have hne100 : (filename.toList.map sanitizeChar).take 100 ≠ [] := by
      intro h
      have h0 : ((filename.toList.map sanitizeChar).take 100).length = 0 := by
        rw [h]; rfl
      rw [List.length_take] at h0
      have hlen' : (String.mk (filename.toList.map sanitizeChar)).length =
          (filename.toList.map sanitizeChar).length := rfl
      rw [hlen'] at hbig
      omega
    have hmkne : String.mk ((filename.toList.map sanitizeChar).take 100) ≠ "" := by
      intro h
      exact hne100 ((string_mk_eq_empty_iff _).mp h)
    simp only [hmkne, if_false]
    refine ⟨hmkne, ?_, ?_, ?_⟩
    · rw [hlen100, List.length_take]
      omega
    · intro c hc
      exact htakekeep c hc
    · exact hsep _ htakekeep
  · simp only [hbig, if_false]
    by_cases hemp : String.mk (filename.toList.map sanitizeChar) = ""
    · simp only [hemp, if_true]
      exact ⟨hne, hlen, hok, hsep _ hok⟩
    · simp only [hemp, if_false]
      have hlen' : (String.mk (filename.toList.map sanitizeChar)).length =
          (filename.toList.map sanitizeChar).length := rfl
      refine ⟨hemp, ?_, ?_, ?_⟩
      · omega
      · intro c hc
        exact hkeepList c hc
      · exact hsep _ hkeepList

/-- Witness for the amended C10 at a concrete hostile input and the code's own
default. -/
theorem sanitize_filename_safe_witness :
    sanitize_filename "../../etc/passwd" "audio.wav" ≠ "" ∧
    (sanitize_filename "../../etc/passwd" "audio.wav").length ≤ 100 ∧
    (∀ c ∈ (sanitize_filename "../../etc/passwd" "audio.wav").toList,
      keepChar c = true) ∧
    '/' ∉ (sanitize_filename "../../etc/passwd" "audio.wav").toList ∧
    '\\' ∉ (sanitize_filename "../../etc/passwd" "audio.wav").toList :=
  sanitize_filename_safe "../../etc/passwd" "audio.wav" (by decide) (by decide)
    (by decide)

theorem statusAt_update (s : Store) (task_id : String) (u : Metadata)
    (now : String) :
    statusAt (update_redis_metadata s task_id u now) task_id =
      orDS u.status (statusAt s task_id) := by
  cases h : s (taskKey task_id) <;>
    simp [statusAt, update_redis_metadata, Store.set, mergeUpdates, h, emptyMeta]

theorem errorAt_update (s : Store) (task_id : String) (u : Metadata)
    (now : String) :
    errorAt (update_redis_metadata s task_id u now) task_id =
      orD u.error_message (errorAt s task_id) := by
  cases h : s (taskKey task_id) <;>
    simp [errorAt, update_redis_metadata, Store.set, mergeUpdates, h, emptyMeta]

theorem jsonFileAt_update (s : Store) (task_id : String) (u : Metadata)
    (now : String) :
    jsonFileAt (update_redis_metadata s task_id u now) task_id =
      orD u.transcribed_json_file (jsonFileAt s task_id) := by
  cases h : s (taskKey task_id) <;>
    simp [jsonFileAt, update_redis_metadata, Store.set, mergeUpdates, h, emptyMeta]

theorem mdFileAt_update (s : Store) (task_id : String) (u : Metadata)
    (now : String) :
    mdFileAt (update_redis_metadata s task_id u now) task_id =
      orD u.transcribed_md_file (mdFileAt s task_id) := by
  cases h : s (taskKey task_id) <;>
    simp [mdFileAt, update_redis_metadata, Store.set, mergeUpdates, h, emptyMeta]

/-- Claim C5: one delivery of the Executor ends `COMPLETED` when transcription
and the artifact writes succeeded and, when a sink suffix was requested, both
uploads returned URLs; it ends `COMPLETED_WITH_S3_UPLOAD_FAILURES` when the
local artifacts were written but a sink was requested and at least one upload
failed; and it ends `FAILED` with the error captured into the record and the
exception re-raised when the source audio is missing or the pipeline or an
artifact write raised. -/
theorem executor_final_status (store : Store) (p : ExecParams)
    (now e : String) (uj um : Option String) :
    (truthy p.s3_path_suffix = false →
      statusAt (transcribe_audio_task store p (ExecOutcome.success uj um) now).1
          p.task_id = some Status.completed ∧
      jsonFileAt (transcribe_audio_task store p (ExecOutcome.success uj um) now).1
          p.task_id = some (outputJsonRel p) ∧
      mdFileAt (transcribe_audio_task store p (ExecOutcome.success uj um) now).1
          p.task_id = some (outputMdRel p) ∧
      (transcribe_audio_task store p (ExecOutcome.success uj um) now).2 = none) ∧
    (truthy p.s3_path_suffix = true → truthy uj = true → truthy um = true →
      statusAt (transcribe_audio_task store p (ExecOutcome.success uj um) now).1
          p.task_id = some Status.completed ∧
      (transcribe_audio_task store p (ExecOutcome.success uj um) now).2 = none) ∧
    (truthy p.s3_path_suffix = true →
      (truthy uj = false ∨ truthy um = false) →
      statusAt (transcribe_audio_task store p (ExecOutcome.success uj um) now).1
          p.task_id = some Status.completedWithS3UploadFailures ∧
      jsonFileAt (transcribe_audio_task store p (ExecOutcome.success uj um) now).1
          p.task_id = some (outputJsonRel p) ∧
      mdFileAt (transcribe_audio_task store p (ExecOutcome.success uj um) now).1
          p.task_id = some (outputMdRel p)) ∧
    (statusAt (transcribe_audio_task store p ExecOutcome.audioMissing now).1
        p.task_id = some Status.failed ∧
      errorAt (transcribe_audio_task store p ExecOutcome.audioMissing now).1
        p.task_id = some (audioMissingMsg p) ∧
      (transcribe_audio_task store p ExecOutcome.audioMissing now).2 =
        some (audioMissingMsg p)) ∧
    (statusAt (transcribe_audio_task store p (ExecOutcome.pipelineRaises e) now).1
        p.task_id = some Status.failed ∧
      errorAt (transcribe_audio_task store p (ExecOutcome.pipelineRaises e) now).1
        p.task_id = some e ∧
      (transcribe_audio_task store p (ExecOutcome.pipelineRaises e) now).2 =
        some e) := by
  refine ⟨?_, ?_, ?_, ?_, ?_⟩
  · intro hsuf
    simp [transcribe_audio_task, applyUpdates, execUpdates, hsuf, execRaised,
      execFinalStatus, statusAt_update, jsonFileAt_update, mdFileAt_update,
      orDS, orD, emptyMeta]
  · intro hsuf huj hum
    simp [transcribe_audio_task, applyUpdates, execUpdates, hsuf, huj, hum,
      execRaised, execFinalStatus, statusAt_update, orDS]
  · intro hsuf hfail
    rcases hfail with huj | hum
    · simp [transcribe_audio_task, applyUpdates, execUpdates, hsuf, huj,
        execRaised, execFinalStatus, statusAt_update, jsonFileAt_update,
        mdFileAt_update, orDS, orD, emptyMeta]
    · simp [transcribe_audio_task, applyUpdates, execUpdates, hsuf, hum,
        execRaised, execFinalStatus, statusAt_update, jsonFileAt_update,
        mdFileAt_update, orDS, orD, emptyMeta]
  · simp [transcribe_audio_task, applyUpdates, execUpdates, execRaised,
      statusAt_update, errorAt_update, orDS, orD]
  · simp [transcribe_audio_task, applyUpdates, execUpdates, execRaised,
      statusAt_update, errorAt_update, orDS, orD]

/-- Witness for C5 at concrete parameters with a requested sink and a failed
markdown upload: the run ends `COMPLETED_WITH_S3_UPLOAD_FAILURES`. -/
theorem executor_final_status_witness :
    (truthy wParams.s3_path_suffix = false →
      statusAt (transcribe_audio_task wStore wParams
          (ExecOutcome.success (some "s3://b/x.json") none) "T4").1
          wParams.task_id = some Status.completed ∧
      jsonFileAt (transcribe_audio_task wStore wParams
          (ExecOutcome.success (some "s3://b/x.json") none) "T4").1
          wParams.task_id = some (outputJsonRel wParams) ∧
      mdFileAt (transcribe_audio_task wStore wParams
          (ExecOutcome.success (some "s3://b/x.json") none) "T4").1
          wParams.task_id = some (outputMdRel wParams) ∧
      (transcribe_audio_task wStore wParams
          (ExecOutcome.success (some "s3://b/x.json") none) "T4").2 = none) ∧
    (truthy wParams.s3_path_suffix = true →
      truthy (some "s3://b/x.json" : Option String) = true →
      truthy (none : Option String) = true →
      statusAt (transcribe_audio_task wStore wParams
          (ExecOutcome.success (some "s3://b/x.json") none) "T4").1
          wParams.task_id = some Status.completed ∧
      (transcribe_audio_task wStore wParams
          (ExecOutcome.success (some "s3://b/x.json") none) "T4").2 = none) ∧
    (truthy wParams.s3_path_suffix = true →
      (truthy (some "s3://b/x.json" : Option String) = false ∨
        truthy (none : Option String) = false) →
      statusAt (transcribe_audio_task wStore wParams
          (ExecOutcome.success (some "s3://b/x.json") none) "T4").1
          wParams.task_id = some Status.completedWithS3UploadFailures ∧
      jsonFileAt (transcribe_audio_task wStore wParams
          (ExecOutcome.success (some "s3://b/x.json") none) "T4").1
          wParams.task_id = some (outputJsonRel wParams) ∧
      mdFileAt (transcribe_audio_task wStore wParams
          (ExecOutcome.success (some "s3://b/x.json") none) "T4").1
          wParams.task_id = some (outputMdRel wParams)) ∧
    (statusAt (transcribe_audio_task wStore wParams ExecOutcome.audioMissing "T4").1
        wParams.task_id = some Status.failed ∧
      errorAt (transcribe_audio_task wStore wParams ExecOutcome.audioMissing "T4").1
        wParams.task_id = some (audioMissingMsg wParams) ∧
      (transcribe_audio_task wStore wParams ExecOutcome.audioMissing "T4").2 =
        some (audioMissingMsg wParams)) ∧
    (statusAt (transcribe_audio_task wStore wParams
        (ExecOutcome.pipelineRaises "boom") "T4").1
        wParams.task_id = some Status.failed ∧
      errorAt (transcribe_audio_task wStore wParams
        (ExecOutcome.pipelineRaises "boom") "T4").1
        wParams.task_id = some "boom" ∧
      (transcribe_audio_task wStore wParams
        (ExecOutcome.pipelineRaises "boom") "T4").2 = some "boom") :=
  executor_final_status wStore wParams "T4" "boom" (some "s3://b/x.json") none

/-- Claim C6, amended: with the task's record present in the store, a
successful enqueue sets status `PENDING_CELERY_DISPATCH` and records the Celery
correlation id; a raising enqueue marks the task `FAILED` with the failure
reason; an unavailable work-queue handler also marks the task `FAILED` with the
reason, but makes zero enqueue attempts rather than the claim's "exactly one";
in every case at most one `delay` call is made and nothing retries. -/
theorem dispatch_updates_record (store : Store) (task_id now cid err : String)
    (m : Metadata) (hrec : store (taskKey task_id) = some m) :
    ((dispatch_transcription_task store task_id (DispatchEnv.enqueueOk cid) now).delayCalls = 1 ∧
     (dispatch_transcription_task store task_id (DispatchEnv.enqueueOk cid) now).store
        (taskKey task_id) =
       some { m with
              status := some Status.pendingCeleryDispatch,
              celery_task_id := some cid,
              celery_dispatch_time := some now }) ∧
    ((dispatch_transcription_task store task_id (DispatchEnv.enqueueRaises err) now).delayCalls = 1 ∧
     (dispatch_transcription_task store task_id (DispatchEnv.enqueueRaises err) now).store
        (taskKey task_id) =
       some { m with
              status := some Status.failed,
              error_message := some ("Failed to dispatch Celery task: " ++ err),
              celery_dispatch_time := some now }) ∧
    ((dispatch_transcription_task store task_id DispatchEnv.unavailable now).delayCalls = 0 ∧
     (dispatch_transcription_task store task_id DispatchEnv.unavailable now).store
        (taskKey task_id) =
       some { m with
              status := some Status.failed,
              error_message := some "Celery worker not available",
              celery_dispatch_time := some now }) := by
  refine ⟨⟨?_, ?_⟩, ⟨?_, ?_⟩, ⟨?_, ?_⟩⟩ <;>
    simp [dispatch_transcription_task, hrec, Store.set]

/-- Witness for the amended C6 on the concrete one-record store. -/
theorem dispatch_updates_record_witness :
    ((dispatch_transcription_task wStore "t1" (DispatchEnv.enqueueOk "cel1") "T1").delayCalls = 1 ∧
     (dispatch_transcription_task wStore "t1" (DispatchEnv.enqueueOk "cel1") "T1").store
        (taskKey "t1") =
       some { emptyMeta with
              status := some Status.pendingCeleryDispatch,
              celery_task_id := some "cel1",
              celery_dispatch_time := some "T1" }) ∧
    ((dispatch_transcription_task wStore "t1" (DispatchEnv.enqueueRaises "down") "T1").delayCalls = 1 ∧
     (dispatch_transcription_task wStore "t1" (DispatchEnv.enqueueRaises "down") "T1").store
        (taskKey "t1") =
       some { emptyMeta with
              status := some Status.failed,
              error_message := some ("Failed to dispatch Celery task: " ++ "down"),
              celery_dispatch_time := some "T1" }) ∧
    ((dispatch_transcription_task wStore "t1" DispatchEnv.unavailable "T1").delayCalls = 0 ∧
     (dispatch_transcription_task wStore "t1" DispatchEnv.unavailable "T1").store
        (taskKey "t1") =
       some { emptyMeta with
              status := some Status.failed,
              error_message := some "Celery worker not available",
              celery_dispatch_time := some "T1" }) :=
  dispatch_updates_record wStore "t1" "T1" "cel1" "down" emptyMeta (by decide)

/-- Counterexample to claim C6 as stated: when the work-queue handler is
unavailable, dispatching a created task makes zero enqueue attempts — no
`delay` call happens at all — not exactly one, while the record is still
marked `FAILED`. -/
theorem dispatch_unavailable_makes_no_attempt :
    (dispatch_transcription_task wStore "t1" DispatchEnv.unavailable "T1").delayCalls = 0 ∧
    ¬ (dispatch_transcription_task wStore "t1" DispatchEnv.unavailable "T1").delayCalls = 1 ∧
    statusAt (dispatch_transcription_task wStore "t1" DispatchEnv.unavailable "T1").store
      "t1" = some Status.failed := by
  refine ⟨?_, ?_, ?_⟩ <;> decide

theorem statusTrace_eq_scan (upds : List Metadata) (store : Store)
    (task_id now : String) :
    statusTrace store task_id upds now =
      statusScan (statusAt store task_id) upds := by
  induction upds generalizing store with
  | nil => rfl
  | cons u rest ih =>
    simp [statusTrace, statusScan, statusAt_update, ih]

/-- Counterexample to claim C3 as stated: delivering the same work unit to the
Executor a second time (the queue's at-least-once delivery) writes `PROCESSING`
over the terminal `COMPLETED` record — a transition out of a terminal state and
backward along the graph. -/
theorem duplicate_delivery_not_forward :
    doubleDeliveryTraceExample =
      [some Status.pendingUploaded, some Status.pendingCeleryDispatch,
       some Status.processing, some Status.processing, some Status.completed,
       some Status.processing, some Status.processing, some Status.completed] ∧
    forwardTrace doubleDeliveryTraceExample = false := by
  constructor <;> rfl

theorem store_set_self (s : Store) (k : String) (m : Metadata) :
    Store.set s k m k = some m := by
  simp [Store.set]

theorem statusAt_set (s : Store) (task_id : String) (m : Metadata) :
    statusAt (Store.set s (taskKey task_id) m) task_id = m.status := by
  simp [statusAt, Store.set]

/-- Claim C3, amended: in the intended lifecycle — initial record write, one
dispatch, and at most one delivery of the work unit to the Executor — every
observed status write moves forward along the section 4.3 graph and never
leaves a terminal state; the guarantee fails only under duplicate delivery,
which resets a terminal record to `PROCESSING` (see the counterexample). -/
theorem single_delivery_forward (ttype : TaskType) (client_id : String)
    (s3rp : Option String) (ofn sfn : String) (ourl os3 : Option String)
    (env : DispatchEnv) (p : ExecParams) (o : ExecOutcome) (t0 t1 t2 : String) :
    forwardTrace
      (singleDeliveryTrace ttype client_id s3rp ofn sfn ourl os3 env p o t0 t1 t2) =
      true := by
  cases env with
  | unavailable =>
    cases ttype <;>
      simp [singleDeliveryTrace, dispatch_transcription_task, statusAt,
        Store.set, createMeta, forwardTrace, forwardStep, statusRank,
        Status.isTerminal]
  | enqueueRaises err =>
    cases ttype <;>
      simp [singleDeliveryTrace, dispatch_transcription_task, statusAt,
        Store.set, createMeta, forwardTrace, forwardStep, statusRank,
        Status.isTerminal]
  | enqueueOk cid =>
    cases o with
    | audioMissing =>
      cases ttype <;>
        simp [singleDeliveryTrace, dispatch_transcription_task, store_set_self,
          statusAt_set, statusAt_update, createMeta, emptyMeta,
          statusTrace_eq_scan, statusScan, execUpdates, orDS, forwardTrace,
          forwardStep, statusRank, Status.isTerminal]
    | pipelineRaises e =>
      cases ttype <;>
        simp [singleDeliveryTrace, dispatch_transcription_task, store_set_self,
          statusAt_set, statusAt_update, createMeta, emptyMeta,
          statusTrace_eq_scan, statusScan, execUpdates, orDS, forwardTrace,
          forwardStep, statusRank, Status.isTerminal]
    | success uj um =>
      cases hsuf : truthy p.s3_path_suffix <;>
        cases hb : (truthy uj && truthy um) <;>
          cases ttype <;>
            simp [singleDeliveryTrace, dispatch_transcription_task,
              store_set_self, statusAt_set, statusAt_update, createMeta,
              emptyMeta, statusTrace_eq_scan, statusScan, execUpdates,
              execFinalStatus, hsuf, hb, orDS, forwardTrace, forwardStep,
              statusRank, Status.isTerminal]

/-- Witness for the amended C3 at a concrete lifecycle: URL ingress, a
successful dispatch, and one successful delivery with a sink suffix whose
markdown upload fails. -/
theorem single_delivery_forward_witness :
    forwardTrace
      (singleDeliveryTrace TaskType.url_download "c1" (some "results/run1")
        "a.wav" "t1_a.wav" (some "http://h/a.wav") none
        (DispatchEnv.enqueueOk "cel1") wParams
        (ExecOutcome.success (some "s3://b/x.json") none) "T0" "T1" "T2") =
      true :=
  single_delivery_forward TaskType.url_download "c1" (some "results/run1")
    "a.wav" "t1_a.wav" (some "http://h/a.wav") none
    (DispatchEnv.enqueueOk "cel1") wParams
    (ExecOutcome.success (some "s3://b/x.json") none) "T0" "T1" "T2"

/-- Counterexample to claim C7 as stated: an artifact-read request with an
invalid format on an absent task is rejected as a bad request before the
record-existence check, so the result is not `NotFound`. -/
theorem download_invalid_fmt_not_notFound :
    (download_transcription_file emptyStore "t1" "xml" none (fun _ => false) "T").1 =
      DownloadResp.badRequestFmt ∧
    (download_transcription_file emptyStore "t1" "xml" none (fun _ => false) "T").1 ≠
      DownloadResp.notFound := by
  refine ⟨?_, ?_⟩ <;> decide

/-- Claim C7, amended: for the status-read, the artifact-read with a valid
format (an invalid format is rejected as a validation error before any record
lookup), and the manual-release operations: an absent record yields `NotFound`;
with the record present, a supplied owner tag differing from the record's
`client_id` yields `AccessDenied`; the two outcomes are checked in that order
and are mutually exclusive; and a request without an owner tag never yields
`AccessDenied`. -/
theorem access_checks_order (store : Store) (task_id fmt : String)
    (client_id : Option String) (fileExists : String → Bool)
    (fs : String → FState) (now : String) (m : Metadata)
    (hfmt : fmt = "json" ∨ fmt = "md") :
    (store (taskKey task_id) = none →
      get_task_status store task_id client_id = StatusResp.notFound ∧
      (download_transcription_file store task_id fmt client_id fileExists now).1 =
        DownloadResp.notFound ∧
      (release_task_resources store task_id client_id fs).1 =
        ReleaseResp.notFound) ∧
    (store (taskKey task_id) = some m → ownerMismatch client_id m = true →
      get_task_status store task_id client_id = StatusResp.accessDenied ∧
      (download_transcription_file store task_id fmt client_id fileExists now).1 =
        DownloadResp.accessDenied ∧
      (release_task_resources store task_id client_id fs).1 =
        ReleaseResp.accessDenied) ∧
    (client_id = none →
      get_task_status store task_id client_id ≠ StatusResp.accessDenied ∧
      (download_transcription_file store task_id fmt client_id fileExists now).1 ≠
        DownloadResp.accessDenied ∧
      (release_task_resources store task_id client_id fs).1 ≠
        ReleaseResp.accessDenied) := by
  refine ⟨?_, ?_, ?_⟩
  · intro h
    rcases hfmt with rfl | rfl <;>
      refine ⟨?_, ?_, ?_⟩ <;>
        simp [get_task_status, download_transcription_file,
          release_task_resources, h]
  · intro hm hmis
    rcases hfmt with rfl | rfl <;>
      refine ⟨?_, ?_, ?_⟩ <;>
        simp [get_task_status, download_transcription_file,
          release_task_resources, hm, hmis]
  · intro hc
    subst hc
    have hmis : ∀ m2 : Metadata, ownerMismatch none m2 = false := by
      intro m2
      simp [ownerMismatch, truthy]
    refine ⟨?_, ?_, ?_⟩
    · cases hk : store (taskKey task_id) <;>
        simp [get_task_status, hk, hmis]
    · rcases hfmt with rfl | rfl <;>
        cases hk : store (taskKey task_id) <;>
          simp only [download_transcription_file, hk, hmis] <;>
            (try split_ifs) <;> simp_all
    · cases hk : store (taskKey task_id) <;>
        simp only [release_task_resources, hk, hmis] <;>
          (try split_ifs) <;> simp_all

/-- Witness for the amended C7 at a concrete one-record store, a mismatching
owner tag and the json format. -/
theorem access_checks_order_witness :
    (wStore (taskKey "t1") = none →
      get_task_status wStore "t1" (some "other") = StatusResp.notFound ∧
      (download_transcription_file wStore "t1" "json" (some "other")
          (fun _ => false) "T").1 = DownloadResp.notFound ∧
      (release_task_resources wStore "t1" (some "other")
          (fun _ => FState.present)).1 = ReleaseResp.notFound) ∧
    (wStore (taskKey "t1") = some emptyMeta →
      ownerMismatch (some "other") emptyMeta = true →
      get_task_status wStore "t1" (some "other") = StatusResp.accessDenied ∧
      (download_transcription_file wStore "t1" "json" (some "other")
          (fun _ => false) "T").1 = DownloadResp.accessDenied ∧
      (release_task_resources wStore "t1" (some "other")
          (fun _ => FState.present)).1 = ReleaseResp.accessDenied) ∧
    ((some "other" : Option String) = none →
      get_task_status wStore "t1" (some "other") ≠ StatusResp.accessDenied ∧
      (download_transcription_file wStore "t1" "json" (some "other")
          (fun _ => false) "T").1 ≠ DownloadResp.accessDenied ∧
      (release_task_resources wStore "t1" (some "other")
          (fun _ => FState.present)).1 ≠ ReleaseResp.accessDenied) :=
  access_checks_order wStore "t1" "json" (some "other") (fun _ => false)
    (fun _ => FState.present) "T" emptyMeta (Or.inl rfl)

/-- Counterexample to claim C4 as stated: a record in status `COMPLETED` with
no object-storage sink passes both gates, yet because the recorded artifact
file is absent from the cache the request yields `NotFound` instead of
streaming, and no `last_download_time` is stamped. -/
theorem download_missing_file_not_streamed :
    (download_transcription_file
        (Store.set emptyStore (taskKey "t1")
          { emptyMeta with
             status := some Status.completed,
             client_id := some "c1",
             transcribed_json_file := some "t1/t1_a.json",
             transcribed_md_file := some "t1/t1_a.md" })
        "t1" "json" none (fun _ => false) "T").1 = DownloadResp.fileMissing ∧
    lastDownloadAt
      (download_transcription_file
        (Store.set emptyStore (taskKey "t1")
          { emptyMeta with
             status := some Status.completed,
             client_id := some "c1",
             transcribed_json_file := some "t1/t1_a.json",
             transcribed_md_file := some "t1/t1_a.md" })
        "t1" "json" none (fun _ => false) "T").2 "t1" = none := by
  refine ⟨?_, ?_⟩ <;> decide

/-- Claim C4, amended: with the record present, the owner check passed and a
valid format: a set `s3_results_path` rejects the request regardless of
status; otherwise any status other than `COMPLETED` is rejected — in
particular `COMPLETED_WITH_S3_UPLOAD_FAILURES` does not count as a completed
state for download purposes (such tasks are in any case rejected by the
object-storage gate, which precedes the status check); otherwise, when the
record holds an artifact path for the requested format and the file exists in
the cache, the file is streamed and `last_download_time` is stamped into the
record; a missing recorded path or a missing file yields `NotFound` without
stamping. -/
theorem download_gating (store : Store) (task_id fmt : String)
    (client_id : Option String) (fileExists : String → Bool) (now : String)
    (m : Metadata) (rel : String)
    (hfmt : fmt = "json" ∨ fmt = "md")
    (hrec : store (taskKey task_id) = some m)
    (hown : ownerMismatch client_id m = false) :
    (truthy m.s3_results_path = true →
      (download_transcription_file store task_id fmt client_id fileExists now).1 =
        DownloadResp.s3Redirect) ∧
    (truthy m.s3_results_path = false → m.status ≠ some Status.completed →
      (download_transcription_file store task_id fmt client_id fileExists now).1 =
        DownloadResp.notCompleted m.status) ∧
    (truthy m.s3_results_path = false → m.status = some Status.completed →
      (if fmt = "json" then m.transcribed_json_file else m.transcribed_md_file) =
        some rel → rel ≠ "" →
      fileExists (pjoin "/app/cache" rel) = true →
      (download_transcription_file store task_id fmt client_id fileExists now).1 =
        DownloadResp.streamed (pjoin "/app/cache" rel) ∧
      (download_transcription_file store task_id fmt client_id fileExists now).2
          (taskKey task_id) =
        some { m with last_download_time := some now }) ∧
    (truthy m.s3_results_path = false → m.status = some Status.completed →
      (if fmt = "json" then m.transcribed_json_file else m.transcribed_md_file) =
        some rel → rel ≠ "" →
      fileExists (pjoin "/app/cache" rel) = false →
      (download_transcription_file store task_id fmt client_id fileExists now).1 =
        DownloadResp.fileMissing) ∧
    (truthy m.s3_results_path = false → m.status = some Status.completed →
      truthy (if fmt = "json" then m.transcribed_json_file
        else m.transcribed_md_file) = false →
      (download_transcription_file store task_id fmt client_id fileExists now).1 =
        DownloadResp.filePathMissing) := by
  refine ⟨?_, ?_, ?_, ?_, ?_⟩
  · intro hs3
    rcases hfmt with rfl | rfl <;>
      simp [download_transcription_file, hrec, hown, hs3]
  · intro hs3 hst
    rcases hfmt with rfl | rfl <;>
      simp [download_transcription_file, hrec, hown, hs3, hst]
  · intro hs3 hst hrel hne hex
    have htr : truthy (some rel) = true := by simp [truthy, hne]
    rcases hfmt with rfl | rfl
    · rw [if_pos rfl] at hrel
      simp [download_transcription_file, hrec, hown, hs3, hst, hrel, htr, hex,
        Store.set]
    · rw [if_neg (by decide)] at hrel
      simp [download_transcription_file, hrec, hown, hs3, hst, hrel, htr, hex,
        Store.set]
  · intro hs3 hst hrel hne hex
    have htr : truthy (some rel) = true := by simp [truthy, hne]
    rcases hfmt with rfl | rfl
    · rw [if_pos rfl] at hrel
      simp [download_transcription_file, hrec, hown, hs3, hst, hrel, htr, hex]
    · rw [if_neg (by decide)] at hrel
      simp [download_transcription_file, hrec, hown, hs3, hst, hrel, htr, hex]
  · intro hs3 hst hrel
    rcases hfmt with rfl | rfl
    · rw [if_pos rfl] at hrel
      simp [download_transcription_file, hrec, hown, hs3, hst, hrel]
    · rw [if_neg (by decide)] at hrel
      simp [download_transcription_file, hrec, hown, hs3, hst, hrel]

/-- Witness for the amended C4 on the concrete completed record: the artifact
is streamed and `last_download_time` stamped when the file exists. -/
theorem download_gating_witness :
    (truthy wMetaCompleted.s3_results_path = true →
      (download_transcription_file wStoreCompleted "t1" "json" none
          (fun _ => true) "T").1 = DownloadResp.s3Redirect) ∧
    (truthy wMetaCompleted.s3_results_path = false →
      wMetaCompleted.status ≠ some Status.completed →
      (download_transcription_file wStoreCompleted "t1" "json" none
          (fun _ => true) "T").1 =
        DownloadResp.notCompleted wMetaCompleted.status) ∧
    (truthy wMetaCompleted.s3_results_path = false →
      wMetaCompleted.status = some Status.completed →
      (if ("json" : String) = "json" then wMetaCompleted.transcribed_json_file
        else wMetaCompleted.transcribed_md_file) = some "t1/t1_a.json" →
      ("t1/t1_a.json" : String) ≠ "" →
      (fun _ => true : String → Bool) (pjoin "/app/cache" "t1/t1_a.json") = true →
      (download_transcription_file wStoreCompleted "t1" "json" none
          (fun _ => true) "T").1 =
        DownloadResp.streamed (pjoin "/app/cache" "t1/t1_a.json") ∧
      (download_transcription_file wStoreCompleted "t1" "json" none
          (fun _ => true) "T").2 (taskKey "t1") =
        some { wMetaCompleted with last_download_time := some "T" }) ∧
    (truthy wMetaCompleted.s3_results_path = false →
      wMetaCompleted.status = some Status.completed →
      (if ("json" : String) = "json" then wMetaCompleted.transcribed_json_file
        else wMetaCompleted.transcribed_md_file) = some "t1/t1_a.json" →
      ("t1/t1_a.json" : String) ≠ "" →
      (fun _ => true : String → Bool) (pjoin "/app/cache" "t1/t1_a.json") = false →
      (download_transcription_file wStoreCompleted "t1" "json" none
          (fun _ => true) "T").1 = DownloadResp.fileMissing) ∧
    (truthy wMetaCompleted.s3_results_path = false →
      wMetaCompleted.status = some Status.completed →
      truthy (if ("json" : String) = "json" then wMetaCompleted.transcribed_json_file
        else wMetaCompleted.transcribed_md_file) = false →
      (download_transcription_file wStoreCompleted "t1" "json" none
          (fun _ => true) "T").1 = DownloadResp.filePathMissing) :=
  download_gating wStoreCompleted "t1" "json" none (fun _ => true) "T"
    wMetaCompleted "t1/t1_a.json" (Or.inl rfl) (by decide) (by decide)

end TranscriberService
